import Mathlib

/-!
Shallow embedding of `src/main.ts` of the google-drive-download action.

The source is a single TypeScript file.  We model its observable behaviour
as explicit traces of effects: step-state writes, input reads, leveled log
messages, the step-failure signal, HTTP requests, and filesystem actions.
The external environment (the URL library's pathname extraction and the
HTTP responses) is a parameter `Env`.

JavaScript string facts used throughout the embedding:
* `core.getInput` (from `@actions/core`) always returns a `string`, with
  `""` when the input is not supplied; it never returns `null`/`undefined`.
  Consequently the nullish-coalescing expressions
  `fileId ?? parseDriveIdFromURL(true, fileUrl)` and
  `folderId ?? parseDriveIdFromURL(false, folderUrl)` in `run` always
  short-circuit to their left operand, and `parseDriveIdFromURL` is never
  invoked from `run`.
* `!s` on a string is `true` exactly when `s` is `""`.
* `s.slice(a, -suffix.length)` with `suffix.length = 0` passes the end
  argument `-0`, which JavaScript's `ToIntegerOrInfinity` turns into `+0`,
  so the slice is `s.slice(a, 0) = ""`.

All strings in play are ASCII, so Lean's codepoint-based `String.length`
agrees with JavaScript's UTF-16 `length`.
-/

/-- `FileMetadata` from main.ts: one remote file resolved for download. -/
structure FileMetadata where
  name : String
  id : String
deriving Repr, DecidableEq

/-- One observable effect performed by the action. -/
inductive Effect where
  | saveState (key value : String)
  | getInput (key : String)
  | logInfo (msg : String)
  | logWarning (msg : String)
  | logError (msg : String)
  | setFailed (msg : String)
  | httpGet (url : String) (headers params : List (String × String))
  | mkdirSync (path : String)
  | createWriteStream (path : String)
  | pipeStream
deriving Repr, DecidableEq

/-- The five raw string inputs read via `core.getInput` (each is `""` when
not supplied; `getInput` never returns `undefined`). -/
structure Inputs where
  token : String
  fileId : String
  fileUrl : String
  folderId : String
  folderUrl : String
  path : String
deriving Repr, DecidableEq

/-- One entry of the folder-listing response's `files` array. -/
structure ListedFile where
  name : String
  id : String
  mimeType : String
deriving Repr, DecidableEq

/-- Folder-listing HTTP response: status plus the `files` array. -/
structure ListResponse where
  status : Nat
  files : List ListedFile
deriving Repr, DecidableEq

/-- The external world: `urlPathname` models `new URL(s).pathname` (we only
consider inputs on which `new URL` does not throw), `listResp` the response
to the folder-listing GET, and `downloadResp` the HTTP status returned for
the content GET of a given file id. -/
structure Env where
  urlPathname : String → String
  listResp : ListResponse
  downloadResp : String → Nat

/-- JavaScript `s.startsWith(p)`. -/
def jsStartsWith (s p : String) : Bool :=
  p.toList.isPrefixOf s.toList

/-- JavaScript `s.endsWith(p)`. -/
def jsEndsWith (s p : String) : Bool :=
  p.toList.isSuffixOf s.toList

/-- JavaScript `s.slice(start, stop)` (ECMA-262 String.prototype.slice):
negative indices count from the end, results are clamped, and an end not
less than the start yields `""`.  A JavaScript `-0` end argument behaves as
`+0`, which the Lean integer `-(0 : Int) = 0` reproduces. -/
def jsSlice (s : String) (start stop : Int) : String :=
  let len : Int := s.toList.length
  let f : Int := if start < 0 then max (len + start) 0 else min start len
  let t : Int := if stop < 0 then max (len + stop) 0 else min stop len
  ((s.toList.drop f.toNat).take (t - f).toNat).asString

/-- `parseDriveIdFromURL` from main.ts.  Returns the parsed id (or `none`
for JS `undefined`) together with the trace of log effects.  The `p = ""`
branch models JS `!path` being true on the empty string.  Note the stray
`)` in the template literal of the error message in the source. -/
def parseDriveIdFromURL (urlPathname : String → String) ( isFile : Bool)
    (path : Option String) : Option String × List Effect :=
  match path with
  | none => (none, [])
  | some p =>
    if p = "" then (none, [])
    else
      let pre := if isFile then "/file/d/" else "/drive/folders/"
      let suf := if isFile then "/view" else ""
      let urlPath := urlPathname p
      if ¬ (jsStartsWith urlPath pre ∧ jsEndsWith urlPath suf) then
        (none, [.logError ("file-url path seems ill-formed: " ++ p ++ ")")])
      else
        (some (jsSlice urlPath (pre.length : Int) (-(suf.length : Int))), [])

/-- `getGoogleDriveUrl` from main.ts: `driveId ?? ""` appended to the base. -/
def getGoogleDriveUrl (driveId : Option String) : String :=
  "https://www.googleapis.com/drive/v3/files/" ++ driveId.getD ""

/-- `downloadFile` from main.ts, as its effect trace.  (The axios
`responseType: 'stream'` option configures body decoding and is not an
observable request field, so it is not part of the `httpGet` effect.) -/
def downloadFile (env : Env) (token : String) (file : FileMetadata) :
    List Effect :=
  let url := getGoogleDriveUrl (some file.id)
  let status := env.downloadResp file.id
  Effect.httpGet url
      [("Authorization", "Bearer " ++ token),
       ("Accept", "application/octet-stream")]
      [("alt", "media"), ("supportsAllDrives", "true")] ::
    (if status ≠ 200 then
      [.setFailed ("Failed to get file from Google drive: " ++ toString status)]
    else
      [.saveState "path" file.name,
       .createWriteStream file.name,
       .pipeStream])

/-- The `response.data.files.forEach` loop of `run`: per-entry log effects
and the `FileMetadata` entries pushed onto `fileIds`, in source order. -/
def listFolderFiles (files : List ListedFile) :
    List Effect × List FileMetadata :=
  match files with
  | [] => ([], [])
  | f :: rest =>
    let tail := listFolderFiles rest
    if f.mimeType = "application/vnd.google-apps.folder" then
      (.logWarning ("Folder with name " ++ f.name ++
          " found, skipping as nested folders are not supported") :: tail.1,
        tail.2)
    else
      (.logInfo ("Adding file " ++ f.name ++
          " to list of files to download") :: tail.1,
        ⟨f.name, f.id⟩ :: tail.2)

/-- The final `if (fileIds.length === 0) ... else if ... else ...` dispatch
of `run`: fail on zero files, await the single download, or create the
destination directory and fire one download per file. -/
def dispatchDownloads (env : Env) (token pth : String)
    (fileIds : List FileMetadata) : List Effect :=
  match fileIds with
  | [] => [.setFailed "Failed to find any files to download"]
  | [f] => downloadFile env token f
  | fs => Effect.mkdirSync pth :: fs.flatMap (downloadFile env token)

/-- `run` from main.ts, as its effect trace.  `finalFileId` and
`finalFolderId` are literally the raw inputs because `??` short-circuits on
a string left operand (see the file header): `parseDriveIdFromURL` is dead
code inside `run`. -/
def run (env : Env) (inp : Inputs) : List Effect :=
  Effect.saveState "isPost" "true" ::
  Effect.getInput "token" ::
  (if inp.token = "" then
    [.setFailed "No access token provided to action"]
  else
    Effect.getInput "file-id" :: Effect.getInput "file-url" ::
    Effect.getInput "folder-id" :: Effect.getInput "folder-url" ::
    (if inp.fileId = "" ∧ inp.fileUrl = "" ∧ inp.folderId = "" ∧
        inp.folderUrl = "" then
      [.setFailed
        "You must define one of following four inputs: fileId, fileUrl, folderId, folderUrl"]
    else
      Effect.getInput "path" ::
      (if inp.path = "" then
        [.setFailed "No path provided to action"]
      else
        if inp.fileId ≠ "" ∨ inp.fileUrl ≠ "" then
          -- const finalFileId = fileId ?? parseDriveIdFromURL(true, fileUrl)
          let finalFileId := inp.fileId
          if finalFileId = "" then
            [.setFailed "Unknown file id"]
          else
            Effect.logInfo ("Downloading file with Id " ++ inp.fileId) ::
            dispatchDownloads env inp.token inp.path
              [⟨inp.path, finalFileId⟩]
        else
          -- const finalFolderId = folderId ?? parseDriveIdFromURL(false, folderUrl)
          let finalFolderId := inp.folderId
          if finalFolderId = "" then
            [.setFailed "Action could not determine folder id"]
          else
            Effect.logInfo ("Searching folder with Id " ++ finalFolderId) ::
            Effect.httpGet (getGoogleDriveUrl none)
              [("Authorization", "Bearer " ++ inp.token)]
              [("q", "'" ++ finalFolderId ++ "' in parents"),
               ("supportsAllDrives", "true"), ("pageSize", "1000")] ::
            (if env.listResp.status ≠ 200 then
              [.setFailed ("Failed to list files in folder from Google drive: "
                ++ toString env.listResp.status)]
            else
              (listFolderFiles env.listResp.files).1 ++
              dispatchDownloads env inp.token inp.path
                (listFolderFiles env.listResp.files).2))))

/-- `post` from main.ts: all its cleanup logic is commented out, so it is a
no-op with an empty effect trace. -/
def post : List Effect := []

/-- Number of HTTP requests in a trace. -/
def networkCalls (tr : List Effect) : Nat :=
  tr.countP fun e =>
    match e with
    | .httpGet _ _ _ => true
    | _ => false

/-! ### Helper lemmas -/

theorem toList_append (a b : String) : (a ++ b).toList = a.toList ++ b.toList :=
  String.data_append a b

theorem asString_toList (s : String) : s.toList.asString = s := rfl

/-- `jsSlice` with a non-negative start index equal to the length of a
front part `a` and a negative end index equal to minus the length of a
non-empty back part `b` strips exactly those two parts. -/
theorem jsSlice_strip (a x b : String) (hb : b.length ≠ 0) :
    jsSlice (a ++ x ++ b) (a.length : Int) (-(b.length : Int)) = x := by
  have hL : (a ++ x ++ b).toList = a.toList ++ (x.toList ++ b.toList) := by
    rw [toList_append, toList_append, List.append_assoc]
  have ha : a.length = a.toList.length := rfl
  have hx : x.length = x.toList.length := rfl
  have hb2 : b.length = b.toList.length := rfl
  have hlen : (a ++ x ++ b).toList.length
      = a.toList.length + (x.toList.length + b.toList.length) := by
    rw [hL, List.length_append, List.length_append]
  have hA : ¬ ((a.length : Int) < 0) := by omega
  have hB : (-(b.length : Int)) < 0 := by omega
  have hminA : (a.length : Int) ≤ ((a ++ x ++ b).toList.length : Int) := by
    omega
  have hmax : (0 : Int) ≤ ((a ++ x ++ b).toList.length : Int)
      + -(b.length : Int) := by omega
  simp only [jsSlice]
  rw [if_neg hA, if_pos hB, min_eq_left hminA, max_eq_left hmax]
  rw [show ((a.length : Int)).toNat = a.toList.length by omega]
  rw [show (((a ++ x ++ b).toList.length : Int) + -(b.length : Int)
      - (a.length : Int)).toNat = x.toList.length by omega]
  rw [hL, List.drop_left, List.take_left, asString_toList]

/-- The entries pushed by the listing loop are exactly the non-folder
entries, in order, mapped to `FileMetadata`. -/
theorem listFolderFiles_resolved (files : List ListedFile) :
    (listFolderFiles files).2 =
      (files.filter
        (fun f => f.mimeType ≠ "application/vnd.google-apps.folder")).map
        (fun f => (⟨f.name, f.id⟩ : FileMetadata)) := by
  induction files with
  | nil => rfl
  | cons f rest ih =>
    by_cases h : f.mimeType = "application/vnd.google-apps.folder" <;>
      simp [listFolderFiles, List.filter_cons, h, ih]

/-- Every folder-typed entry of the listing contributes its warning to the
loop's effect trace. -/
theorem listFolderFiles_warning (files : List ListedFile) (f : ListedFile)
    (hf : f ∈ files)
    (hm : f.mimeType = "application/vnd.google-apps.folder") :
    Effect.logWarning ("Folder with name " ++ f.name ++
        " found, skipping as nested folders are not supported")
      ∈ (listFolderFiles files).1 := by
  induction files with
  | nil => cases hf
  | cons g rest ih =>
    rcases List.mem_cons.mp hf with h | h
    · subst h
      simp [listFolderFiles, hm]
    · by_cases hg : g.mimeType = "application/vnd.google-apps.folder" <;>
        simp [listFolderFiles, hg, ih h]

/-- Under the hypotheses putting `run` on the folder branch with a 200
listing response, the trace unfolds to the listing-loop effects followed by
the download dispatch. -/
theorem run_folder_200 (env : Env) (inp : Inputs)
    (htok : inp.token ≠ "") (hfid : inp.fileId = "")
    (hfurl : inp.fileUrl = "") (hfold : inp.folderId ≠ "")
    (hpath : inp.path ≠ "") (hstatus : env.listResp.status = 200) :
    run env inp =
      Effect.saveState "isPost" "true" :: Effect.getInput "token" ::
      Effect.getInput "file-id" :: Effect.getInput "file-url" ::
      Effect.getInput "folder-id" :: Effect.getInput "folder-url" ::
      Effect.getInput "path" ::
      Effect.logInfo ("Searching folder with Id " ++ inp.folderId) ::
      Effect.httpGet (getGoogleDriveUrl none)
        [("Authorization", "Bearer " ++ inp.token)]
        [("q", "'" ++ inp.folderId ++ "' in parents"),
         ("supportsAllDrives", "true"), ("pageSize", "1000")] ::
      ((listFolderFiles env.listResp.files).1 ++
        dispatchDownloads env inp.token inp.path
          (listFolderFiles env.listResp.files).2) := by
  simp [run, htok, hfid, hfurl, hfold, hpath, hstatus]

/-! ### Concrete environments and inputs used to instantiate claims -/

/-- An environment whose listing succeeds with an empty file list and whose
downloads all return 200. -/
def envOk : Env where
  urlPathname _ := ""
  listResp := { status := 200, files := [] }
  downloadResp _ := 200

/-- An environment whose downloads all return 500. -/
def envDown500 : Env where
  urlPathname _ := ""
  listResp := { status := 200, files := [] }
  downloadResp _ := 500

/-- An environment that parses the example URLs of claim C1 and returns an
empty (200) listing. -/
def envC1 : Env where
  urlPathname s :=
    if s = "https://host/file/d/ABC/view" then "/file/d/ABC/view"
    else "/drive/folders/XYZ"
  listResp := { status := 200, files := [] }
  downloadResp _ := 200

/-- An environment whose folder listing contains exactly one entry, a
nested folder. -/
def envFolderOnly : Env where
  urlPathname _ := ""
  listResp :=
    ⟨200, [⟨"sub", "id1", "application/vnd.google-apps.folder"⟩]⟩
  downloadResp _ := 200

/-- Inputs giving only a file URL (no explicit file id). -/
def inpFileUrlOnly : Inputs where
  token := "tok"
  fileId := ""
  fileUrl := "https://host/file/d/ABC/view"
  folderId := ""
  folderUrl := ""
  path := "out.bin"

/-- Inputs giving only a folder URL (no explicit folder id). -/
def inpFolderUrlOnly : Inputs where
  token := "tok"
  fileId := ""
  fileUrl := ""
  folderId := ""
  folderUrl := "https://host/drive/folders/XYZ"
  path := "out"

/-- Inputs giving an explicit folder id. -/
def inpFolderId : Inputs where
  token := "tok"
  fileId := ""
  fileUrl := ""
  folderId := "FLD"
  folderUrl := ""
  path := "out"

/-- Inputs with an empty token. -/
def inpNoToken : Inputs where
  token := ""
  fileId := "F1"
  fileUrl := ""
  folderId := ""
  folderUrl := ""
  path := "out.bin"

/-- Inputs with a token but none of the four identifier inputs. -/
def inpNoIds : Inputs where
  token := "tok"
  fileId := ""
  fileUrl := ""
  folderId := ""
  folderUrl := ""
  path := "out.bin"

/-! ### Claims -/

/-- Claim C1.  REFUTED (code bug): in `run`, `??` never falls through to
URL parsing because `core.getInput` returns a string (never nullish).  With
`file-id` empty and a well-formed `file-url`, URL parsing would yield the
identifier `"ABC"`, yet `run` fails with "Unknown file id"; likewise the
folder case fails with "Action could not determine folder id" although a
folder URL was supplied. -/
theorem c1_url_resolution_is_dead_code :
    (parseDriveIdFromURL envC1.urlPathname true
        (some inpFileUrlOnly.fileUrl)).1 = some "ABC" ∧
    run envC1 inpFileUrlOnly =
      [Effect.saveState "isPost" "true", Effect.getInput "token",
       Effect.getInput "file-id", Effect.getInput "file-url",
       Effect.getInput "folder-id", Effect.getInput "folder-url",
       Effect.getInput "path", Effect.setFailed "Unknown file id"] ∧
    run envC1 inpFolderUrlOnly =
      [Effect.saveState "isPost" "true", Effect.getInput "token",
       Effect.getInput "file-id", Effect.getInput "file-url",
       Effect.getInput "folder-id", Effect.getInput "folder-url",
       Effect.getInput "path",
       Effect.setFailed "Action could not determine folder id"] := by
  decide

/-- Claim C2.  REFUTED (code bug): the folder grammar has an empty suffix,
so the source's `urlPath.slice(prefix.length, -suffix.length)` is called
with end index `-0 = 0` and always returns `""`; the parsed folder id is
never `"XYZ"`. -/
theorem c2_folder_url_parses_to_empty :
    parseDriveIdFromURL (fun _ => "/drive/folders/XYZ") false
      (some "https://host/drive/folders/XYZ") = (some "", []) ∧
    (parseDriveIdFromURL (fun _ => "/drive/folders/XYZ") false
      (some "https://host/drive/folders/XYZ")).1 ≠ some "XYZ" := by
  decide

/-- Claim C5: `getGoogleDriveUrl` appends the identifier to the fixed base
when present and returns the bare base (trailing slash) when absent. -/
theorem c5_getGoogleDriveUrl_pure :
    (∀ d : String, getGoogleDriveUrl (some d) =
      "https://www.googleapis.com/drive/v3/files/" ++ d) ∧
    getGoogleDriveUrl none = "https://www.googleapis.com/drive/v3/files/" :=
  ⟨fun _ => rfl, rfl⟩

/-- Claim C6: for every environment and every input state, the very first
effect of the run phase is the persisted state write `isPost = true`,
before any input read, failure signal, or network call. -/
theorem c6_isPost_saved_first (env : Env) (inp : Inputs) :
    (run env inp).head? = some (Effect.saveState "isPost" "true") := rfl

/-- Claim C3: for every identifier `X` containing no `/` characters, the
file grammar round-trips: on a URL whose path is `/file/d/` ++ X ++
`/view`, `parseDriveIdFromURL true` returns exactly `X`. -/
theorem c3_file_url_identifier_roundtrip (pf : String → String)
    (u X : String) (hu : u ≠ "") (_hX : '/' ∉ X.toList)
    (hp : pf u = "/file/d/" ++ X ++ "/view") :
    (parseDriveIdFromURL pf true (some u)).1 = some X := by
  have hstart : jsStartsWith (pf u) "/file/d/" = true := by
    rw [jsStartsWith, hp, toList_append, toList_append, List.append_assoc]
    exact List.isPrefixOf_iff_prefix.mpr (List.prefix_append _ _)
  have hend : jsEndsWith (pf u) "/view" = true := by
    rw [jsEndsWith, hp, toList_append]
    exact List.isSuffixOf_iff_suffix.mpr (List.suffix_append _ _)
  have hslice : jsSlice (pf u) (("/file/d/" : String).length : Int)
      (-(("/view" : String).length : Int)) = X := by
    rw [hp]
    exact jsSlice_strip _ _ _ (by decide)
  simp only [parseDriveIdFromURL, if_neg hu, if_true]
  rw [if_neg (by simp [hstart, hend])]
  rw [hslice]

/-- Witness for claim C3 at the spec's own example, `X = "ABC123"`. -/
theorem c3_witness :
    ("https://host/file/d/ABC123/view" ≠ "" ∧
      '/' ∉ "ABC123".toList ∧
      (fun (_ : String) => "/file/d/ABC123/view")
          "https://host/file/d/ABC123/view"
        = "/file/d/" ++ "ABC123" ++ "/view") ∧
    (parseDriveIdFromURL (fun _ => "/file/d/ABC123/view") true
      (some "https://host/file/d/ABC123/view")).1 = some "ABC123" :=
  ⟨⟨by decide, by decide, by decide⟩,
    c3_file_url_identifier_roundtrip (fun _ => "/file/d/ABC123/view")
      "https://host/file/d/ABC123/view" "ABC123"
      (by decide) (by decide) (by decide)⟩

/-- Claim C4, as stated, is FALSE in one detail: the template literal in
the source has a stray `)` after `${path}`, so the emitted error text ends
in a closing parenthesis.  At the malformed input below the emitted log is
`file-url path seems ill-formed: https://host/wrong/path)` and not the
claimed text without the parenthesis. -/
theorem c4_counterexample :
    (parseDriveIdFromURL (fun _ => "/wrong/path") true
        (some "https://host/wrong/path")).2 =
      [Effect.logError
        "file-url path seems ill-formed: https://host/wrong/path)"] ∧
    (parseDriveIdFromURL (fun _ => "/wrong/path") true
        (some "https://host/wrong/path")).2 ≠
      [Effect.logError
        "file-url path seems ill-formed: https://host/wrong/path"] := by
  decide

/-- Claim C4 as amended: on a non-empty URL string whose path fails the
shape check, the parser returns an absent result and emits exactly one
error-level log reading `file-url path seems ill-formed: ` followed by the
input string and a stray closing parenthesis; on an absent URL argument it
returns absent with no log emitted. -/
theorem c4_malformed_logs_and_absent (pf : String → String) (fl : Bool)
    (u : String) (hu : u ≠ "")
    (hbad : ¬ (jsStartsWith (pf u) (if fl then "/file/d/" else "/drive/folders/") = true ∧
        jsEndsWith (pf u) (if fl then "/view" else "") = true)) :
    parseDriveIdFromURL pf fl (some u) =
      (none,
        [Effect.logError ("file-url path seems ill-formed: " ++ u ++ ")")]) ∧
    parseDriveIdFromURL pf fl none = (none, []) := by
  refine ⟨?_, rfl⟩
  simp only [parseDriveIdFromURL, if_neg hu]
  rw [if_pos hbad]

/-- Witness for claim C4 at the spec's own malformed example. -/
theorem c4_witness :
    parseDriveIdFromURL (fun _ => "/wrong/path") true
        (some "https://host/wrong/path") =
      (none,
        [Effect.logError
          "file-url path seems ill-formed: https://host/wrong/path)"]) ∧
    parseDriveIdFromURL (fun _ => "/wrong/path") true none = (none, []) :=
  c4_malformed_logs_and_absent (fun _ => "/wrong/path") true
    "https://host/wrong/path" (by decide) (by decide)

/-- Claim C7: with an empty token the run phase fails with exactly
"No access token provided to action" and performs zero network calls; with
a token but all four identifier inputs empty it fails with exactly the
four-input message and performs zero network calls. -/
theorem c7_config_errors_no_network (env : Env) (inp : Inputs) :
    (inp.token = "" →
      run env inp =
        [Effect.saveState "isPost" "true", Effect.getInput "token",
         Effect.setFailed "No access token provided to action"] ∧
      networkCalls (run env inp) = 0) ∧
    (inp.token ≠ "" → inp.fileId = "" → inp.fileUrl = "" →
      inp.folderId = "" → inp.folderUrl = "" →
      run env inp =
        [Effect.saveState "isPost" "true", Effect.getInput "token",
         Effect.getInput "file-id", Effect.getInput "file-url",
         Effect.getInput "folder-id", Effect.getInput "folder-url",
         Effect.setFailed
           "You must define one of following four inputs: fileId, fileUrl, folderId, folderUrl"] ∧
      networkCalls (run env inp) = 0) := by
  constructor
  · intro h
    have htr : run env inp =
        [Effect.saveState "isPost" "true", Effect.getInput "token",
         Effect.setFailed "No access token provided to action"] := by
      simp [run, h]
    exact ⟨htr, by rw [htr]; rfl⟩
  · intro h1 h2 h3 h4 h5
    have htr : run env inp =
        [Effect.saveState "isPost" "true", Effect.getInput "token",
         Effect.getInput "file-id", Effect.getInput "file-url",
         Effect.getInput "folder-id", Effect.getInput "folder-url",
         Effect.setFailed
           "You must define one of following four inputs: fileId, fileUrl, folderId, folderUrl"] := by
      simp [run, h1, h2, h3, h4, h5]
    exact ⟨htr, by rw [htr]; rfl⟩

/-- Witness for claim C7: the empty-token case and the no-identifier case
at concrete inputs. -/
theorem c7_witness :
    run envOk inpNoToken =
      [Effect.saveState "isPost" "true", Effect.getInput "token",
       Effect.setFailed "No access token provided to action"] ∧
    run envOk inpNoIds =
      [Effect.saveState "isPost" "true", Effect.getInput "token",
       Effect.getInput "file-id", Effect.getInput "file-url",
       Effect.getInput "folder-id", Effect.getInput "folder-url",
       Effect.setFailed
         "You must define one of following four inputs: fileId, fileUrl, folderId, folderUrl"] :=
  ⟨((c7_config_errors_no_network envOk inpNoToken).1 rfl).1,
   ((c7_config_errors_no_network envOk inpNoIds).2
     (by decide) rfl rfl rfl rfl).1⟩

/-- Claim C8: on the folder branch with a 200 listing response, an entry
is appended to the resolution list (as its name/id pair) exactly when its
MIME type is not the folder type; every folder-typed entry contributes a
skip warning to the run trace; and when zero entries are appended the run
trace contains the failure "Failed to find any files to download". -/
theorem c8_listing_filters_folders (env : Env) (inp : Inputs)
    (htok : inp.token ≠ "") (hfid : inp.fileId = "")
    (hfurl : inp.fileUrl = "") (hfold : inp.folderId ≠ "")
    (hpath : inp.path ≠ "") (hstatus : env.listResp.status = 200) :
    (listFolderFiles env.listResp.files).2 =
      (env.listResp.files.filter
        (fun f => f.mimeType ≠ "application/vnd.google-apps.folder")).map
        (fun f => (⟨f.name, f.id⟩ : FileMetadata)) ∧
    (∀ f ∈ env.listResp.files,
      f.mimeType = "application/vnd.google-apps.folder" →
      Effect.logWarning ("Folder with name " ++ f.name ++
          " found, skipping as nested folders are not supported")
        ∈ run env inp) ∧
    ((listFolderFiles env.listResp.files).2 = [] →
      Effect.setFailed "Failed to find any files to download"
        ∈ run env inp) := by
  refine ⟨listFolderFiles_resolved _, ?_, ?_⟩
  · intro f hf hm
    rw [run_folder_200 env inp htok hfid hfurl hfold hpath hstatus]
    simp [listFolderFiles_warning env.listResp.files f hf hm]
  · intro hnil
    rw [run_folder_200 env inp htok hfid hfurl hfold hpath hstatus]
    simp [dispatchDownloads, hnil]

/-- Witness for claim C8: a listing whose only entry is a nested folder
resolves to zero files and fails the run. -/
theorem c8_witness :
    (listFolderFiles envFolderOnly.listResp.files).2 = [] ∧
    Effect.setFailed "Failed to find any files to download"
      ∈ run envFolderOnly inpFolderId :=
  ⟨by decide,
    (c8_listing_filters_folders envFolderOnly inpFolderId
      (by decide) rfl rfl (by decide) (by decide) rfl).2.2 (by decide)⟩

/-- Claim C9: on a non-200 download response, `downloadFile` signals the
failure "Failed to get file from Google drive: `<status>`" and neither
writes the state key `path` nor opens a write stream; on a 200 response it
saves `path = file.name` as the effect immediately before opening the
write stream. -/
theorem c9_download_status_check (env : Env) (token : String)
    (file : FileMetadata) :
    (env.downloadResp file.id ≠ 200 →
      downloadFile env token file =
        [Effect.httpGet (getGoogleDriveUrl (some file.id))
          [("Authorization", "Bearer " ++ token),
           ("Accept", "application/octet-stream")]
          [("alt", "media"), ("supportsAllDrives", "true")],
         Effect.setFailed ("Failed to get file from Google drive: "
           ++ toString (env.downloadResp file.id))] ∧
      (∀ v, Effect.saveState "path" v ∉ downloadFile env token file) ∧
      (∀ p, Effect.createWriteStream p ∉ downloadFile env token file)) ∧
    (env.downloadResp file.id = 200 →
      downloadFile env token file =
        [Effect.httpGet (getGoogleDriveUrl (some file.id))
          [("Authorization", "Bearer " ++ token),
           ("Accept", "application/octet-stream")]
          [("alt", "media"), ("supportsAllDrives", "true")],
         Effect.saveState "path" file.name,
         Effect.createWriteStream file.name,
         Effect.pipeStream]) := by
  constructor
  · intro h
    refine ⟨by simp [downloadFile, h], ?_, ?_⟩ <;> intro v <;>
      simp [downloadFile, h]
  · intro h
    simp [downloadFile, h]

/-- Witness for claim C9: a 500 download and a 200 download at a concrete
file. -/
theorem c9_witness :
    downloadFile envDown500 "tok" ⟨"out.bin", "F1"⟩ =
      [Effect.httpGet "https://www.googleapis.com/drive/v3/files/F1"
        [("Authorization", "Bearer tok"),
         ("Accept", "application/octet-stream")]
        [("alt", "media"), ("supportsAllDrives", "true")],
       Effect.setFailed "Failed to get file from Google drive: 500"] ∧
    downloadFile envOk "tok" ⟨"out.bin", "F1"⟩ =
      [Effect.httpGet "https://www.googleapis.com/drive/v3/files/F1"
        [("Authorization", "Bearer tok"),
         ("Accept", "application/octet-stream")]
        [("alt", "media"), ("supportsAllDrives", "true")],
       Effect.saveState "path" "out.bin",
       Effect.createWriteStream "out.bin",
       Effect.pipeStream] :=
  ⟨((c9_download_status_check envDown500 "tok" ⟨"out.bin", "F1"⟩).1
      (by decide)).1,
   (c9_download_status_check envOk "tok" ⟨"out.bin", "F1"⟩).2 rfl⟩

/-- Claim C10: on a URL whose path is `/file/d/view`, the overlapping
prefix and suffix both match, and the parser returns a present but empty
identifier with no error log. -/
theorem c10_present_but_empty_identifier :
    parseDriveIdFromURL (fun _ => "/file/d/view") true
      (some "https://host/file/d/view") = (some "", []) := by
  decide
